import Mathlib

/-!
Shallow embedding of the price-updater batch scripts: three CSV-driven
clients (src/mark_not_spam_evm.py, src/mark_not_spam_solana.py, src/run.py)
that resolve each address to an asset id over HTTP and then apply a
mutation (mark-not-spam, or a price-source update).  Network effects are
modelled by oracles assigning each call an observable HTTP result, and by
an explicit trace of the calls a run attempts.
-/

/-- A parsed JSON object, as far as the scripts inspect one: string keys
mapped to string values. -/
abbrev Dict := List (String × String)

/-- Python dict.get(k): the value at the first matching key, if any. -/
def dictGet (d : Dict) (k : String) : Option String :=
  (d.find? (fun p => p.1 == k)).map (fun p => p.2)

/-- Python row.get(k, default-empty-string). -/
def pyGetD (d : Dict) (k : String) : String := (dictGet d k).getD ""

/-- Python str.strip(): remove leading and trailing whitespace. -/
def pyStrip (s : String) : String :=
  String.mk
    (((s.data.dropWhile Char.isWhitespace).reverse.dropWhile
        Char.isWhitespace).reverse)

/-- Python truthiness of an optional string: None and the empty string are
falsy. -/
def pyTruthyStrOpt : Option String → Bool
  | none => false
  | some s => !(s == "")

/-- Python truthiness of an optional dict: None and the empty dict are
falsy. -/
def pyTruthyDictOpt : Option Dict → Bool
  | none => false
  | some d => !d.isEmpty

/-- Python falsiness of an os.getenv result: unset or empty is falsy. -/
def pyFalsyOptStr : Option String → Bool
  | none => true
  | some s => s == ""

/-- The observable result of one HTTP POST as the scripts see it: a
transport-level failure, or a response carrying a status code and a body
(none when the body does not parse as a JSON object). -/
inductive HttpResult where
  | transportError : HttpResult
  | response : Nat → Option Dict → HttpResult
deriving DecidableEq

/-- get_asset_info (mark_not_spam_evm.py lines 52-85; the same
error handling appears in mark_not_spam_solana.py lines 51-84 and
run.py lines 22-52): raise_for_status raises on any status of 400 or
above, an unparsable body raises a decode error, both are caught by the
except branch which returns None; otherwise the parsed JSON body is
returned. -/
def get_asset_info : HttpResult → Option Dict
  | HttpResult.transportError => none
  | HttpResult.response status body => if 400 ≤ status then none else body

/-- mark_asset_not_spam (mark_not_spam_evm.py lines 88-119 and
mark_not_spam_solana.py lines 87-118): True exactly on a 200 response;
a raised status or transport failure returns False, as does a non-error
status other than 200. -/
def mark_asset_not_spam : HttpResult → Bool
  | HttpResult.transportError => false
  | HttpResult.response status _ => if 400 ≤ status then false else status == 200

/-- update_asset_price (run.py lines 55-79): the POST is issued with the
dry_run flag as a form field (never branched on locally); error handling is
the same as get_asset_info. -/
def update_asset_price : HttpResult → Option Dict
  | HttpResult.transportError => none
  | HttpResult.response status body => if 400 ≤ status then none else body

/-- One attempted outbound call, tagged by endpoint and payload. -/
inductive NetCall where
  | resolveCall (address chain : String) : NetCall
  | markSpamCall (assetId : String) : NetCall
  | updatePriceCall (assetId : String) (dryRunField : Bool) : NetCall
deriving DecidableEq

/-- Whether a call targets a mutation endpoint (mark-as-spam or
update-price) rather than the read-only resolution endpoint. -/
def NetCall.isMutation : NetCall → Bool
  | NetCall.resolveCall _ _ => false
  | NetCall.markSpamCall _ => true
  | NetCall.updatePriceCall _ _ => true

/-- Outcome recorded for one (row, chain) pair. -/
inductive ChainOutcome where
  | success | failed | notFound | skipped
deriving DecidableEq

/-- The per-(row, chain) resolve-then-mutate decision shared by
mark_not_spam_evm.py process_csv (lines 157-197) and
mark_not_spam_solana.py process_csv (lines 155-193): the resolve call is
always attempted; a falsy result (request failure, error status, or empty
body) is treated as not-found; a missing or empty id field is a failure;
otherwise a dry run records success without any mutation call, while a
live run attempts the mark call and its boolean result decides success or
failure.  Returns the outcome together with the calls attempted. -/
def mark_not_spam_step (dry_run : Bool) (address chain : String)
    (resolveResp markResp : HttpResult) : ChainOutcome × List NetCall :=
  match get_asset_info resolveResp with
  | none => (ChainOutcome.notFound, [NetCall.resolveCall address chain])
  | some asset_info =>
    if asset_info.isEmpty then
      (ChainOutcome.notFound, [NetCall.resolveCall address chain])
    else
      match dictGet asset_info "id" with
      | none => (ChainOutcome.failed, [NetCall.resolveCall address chain])
      | some asset_id =>
        if asset_id == "" then
          (ChainOutcome.failed, [NetCall.resolveCall address chain])
        else if !dry_run then
          ((if mark_asset_not_spam markResp then ChainOutcome.success
            else ChainOutcome.failed),
           [NetCall.resolveCall address chain, NetCall.markSpamCall asset_id])
        else
          (ChainOutcome.success, [NetCall.resolveCall address chain])

/-- Per-chain counter bucket of mark_not_spam_evm.py (stats by_chain). -/
structure ChainStats where
  success : Nat
  failed : Nat
  not_found : Nat
deriving DecidableEq

def ChainStats.init : ChainStats := ⟨0, 0, 0⟩

/-- The stats dictionary of mark_not_spam_evm.py process_csv (lines
124-130): run-wide counters plus a per-chain bucket map. -/
structure EvmStats where
  total_rows : Nat
  skipped : Nat
  processed_chains : Nat
  failed_chains : Nat
  by_chain : String → ChainStats

def EvmStats.init : EvmStats := ⟨0, 0, 0, 0, fun _ => ChainStats.init⟩

/-- The environment of one mark_not_spam_evm.py run: the HTTP result of
each resolve and each mark call, indexed by CSV row number and chain. -/
structure EvmOracle where
  resolve : Nat → String → HttpResult
  mark : Nat → String → HttpResult

/-- Counter updates of mark_not_spam_evm.py process_csv for one
(row, chain) outcome (lines 164-194): not-found bumps only the per-chain
bucket; failure bumps the bucket and the run-wide failed_chains; success
bumps the bucket and the run-wide processed_chains.  The skipped outcome
never arises at chain level (row validation happens earlier); its clause
mirrors the spec vocabulary by bumping the skipped counter. -/
def evm_apply_outcome (s : EvmStats) (chain : String) :
    ChainOutcome → EvmStats
  | ChainOutcome.notFound =>
    { s with by_chain := fun c => if c == chain then
        { s.by_chain c with not_found := (s.by_chain c).not_found + 1 }
      else s.by_chain c }
  | ChainOutcome.failed =>
    { s with failed_chains := s.failed_chains + 1,
             by_chain := fun c => if c == chain then
        { s.by_chain c with failed := (s.by_chain c).failed + 1 }
      else s.by_chain c }
  | ChainOutcome.success =>
    { s with processed_chains := s.processed_chains + 1,
             by_chain := fun c => if c == chain then
        { s.by_chain c with success := (s.by_chain c).success + 1 }
      else s.by_chain c }
  | ChainOutcome.skipped => { s with skipped := s.skipped + 1 }

/-- Row validation of mark_not_spam_evm.py process_csv (lines 138-144):
a row with a blank (after stripping) EVM address or product name is
dropped by a bare continue. -/
def evm_row_skip (row : Dict) : Bool :=
  pyStrip (pyGetD row "EVM address") == "" ||
  pyStrip (pyGetD row "Product name") == ""

/-- Counter effect of one CSV row of mark_not_spam_evm.py process_csv
(lines 137-197): an invalid row changes nothing; a valid row bumps
total_rows and then folds the per-chain outcomes over the configured
chain list. -/
def evm_row_stats (chains : List String) (dry_run : Bool) (o : EvmOracle)
    (row_num : Nat) (row : Dict) (s : EvmStats) : EvmStats :=
  if evm_row_skip row then s
  else
    chains.foldl
      (fun st chain =>
        evm_apply_outcome st chain
          (mark_not_spam_step dry_run (pyStrip (pyGetD row "EVM address"))
            chain (o.resolve row_num chain) (o.mark row_num chain)).1)
      { s with total_rows := s.total_rows + 1 }

/-- Calls attempted while processing one CSV row of
mark_not_spam_evm.py process_csv: none for an invalid row, otherwise the
per-chain call lists in chain order. -/
def evm_row_calls (chains : List String) (dry_run : Bool) (o : EvmOracle)
    (row_num : Nat) (row : Dict) : List NetCall :=
  if evm_row_skip row then []
  else
    (chains.map (fun chain =>
      (mark_not_spam_step dry_run (pyStrip (pyGetD row "EVM address"))
        chain (o.resolve row_num chain) (o.mark row_num chain)).2)).flatten

/-- The row loop of mark_not_spam_evm.py process_csv, counters component;
row numbering starts at 2 as in the script (after the CSV header). -/
def evm_csv_stats (chains : List String) (dry_run : Bool) (o : EvmOracle) :
    Nat → List Dict → EvmStats → EvmStats
  | _, [], s => s
  | n, row :: rest, s =>
    evm_csv_stats chains dry_run o (n + 1) rest
      (evm_row_stats chains dry_run o n row s)

/-- The row loop of mark_not_spam_evm.py process_csv, trace component. -/
def evm_csv_calls (chains : List String) (dry_run : Bool) (o : EvmOracle) :
    Nat → List Dict → List NetCall
  | _, [] => []
  | n, row :: rest =>
    evm_row_calls chains dry_run o n row ++
      evm_csv_calls chains dry_run o (n + 1) rest

/-- The configured chain set of mark_not_spam_evm.py (line 26). -/
def EVM_CHAINS : List String := ["evm_56"]

/-- process_csv of mark_not_spam_evm.py over the configured chains:
final counters and the full call trace of a run. -/
def process_csv_evm (dry_run : Bool) (o : EvmOracle) (rows : List Dict) :
    EvmStats × List NetCall :=
  (evm_csv_stats EVM_CHAINS dry_run o 2 rows EvmStats.init,
   evm_csv_calls EVM_CHAINS dry_run o 2 rows)

/-- The flat stats dictionary of mark_not_spam_solana.py process_csv
(lines 123-129). -/
structure SolStats where
  total_rows : Nat
  skipped : Nat
  success : Nat
  failed : Nat
  not_found : Nat
deriving DecidableEq

def SolStats.init : SolStats := ⟨0, 0, 0, 0, 0⟩

/-- The environment of one mark_not_spam_solana.py run, indexed by CSV
row number (a single fixed chain). -/
structure SolOracle where
  resolve : Nat → HttpResult
  mark : Nat → HttpResult

/-- The configured chain of mark_not_spam_solana.py (line 25). -/
def SOLANA_CHAIN : String := "solana_mainnet"

/-- Counter updates of mark_not_spam_solana.py process_csv for one row
outcome (lines 159-189).  As in the EVM variant, the skipped outcome
never arises here (validation short-circuits earlier). -/
def sol_apply_outcome (s : SolStats) : ChainOutcome → SolStats
  | ChainOutcome.notFound => { s with not_found := s.not_found + 1 }
  | ChainOutcome.failed => { s with failed := s.failed + 1 }
  | ChainOutcome.success => { s with success := s.success + 1 }
  | ChainOutcome.skipped => { s with skipped := s.skipped + 1 }

/-- Row validation of mark_not_spam_solana.py process_csv (lines
137-143): blank Solana address or product name drops the row by a bare
continue. -/
def sol_row_skip (row : Dict) : Bool :=
  pyStrip (pyGetD row "Solana Address") == "" ||
  pyStrip (pyGetD row "Product name") == ""

/-- Counter effect of one CSV row of mark_not_spam_solana.py process_csv
(lines 136-193). -/
def sol_row_stats (dry_run : Bool) (o : SolOracle) (row_num : Nat)
    (row : Dict) (s : SolStats) : SolStats :=
  if sol_row_skip row then s
  else
    sol_apply_outcome { s with total_rows := s.total_rows + 1 }
      (mark_not_spam_step dry_run (pyStrip (pyGetD row "Solana Address"))
        SOLANA_CHAIN (o.resolve row_num) (o.mark row_num)).1

/-- Calls attempted while processing one CSV row of
mark_not_spam_solana.py process_csv. -/
def sol_row_calls (dry_run : Bool) (o : SolOracle) (row_num : Nat)
    (row : Dict) : List NetCall :=
  if sol_row_skip row then []
  else
    (mark_not_spam_step dry_run (pyStrip (pyGetD row "Solana Address"))
      SOLANA_CHAIN (o.resolve row_num) (o.mark row_num)).2

/-- The row loop of mark_not_spam_solana.py process_csv, counters
component. -/
def sol_csv_stats (dry_run : Bool) (o : SolOracle) :
    Nat → List Dict → SolStats → SolStats
  | _, [], s => s
  | n, row :: rest, s =>
    sol_csv_stats dry_run o (n + 1) rest (sol_row_stats dry_run o n row s)

/-- The row loop of mark_not_spam_solana.py process_csv, trace
component. -/
def sol_csv_calls (dry_run : Bool) (o : SolOracle) :
    Nat → List Dict → List NetCall
  | _, [] => []
  | n, row :: rest =>
    sol_row_calls dry_run o n row ++ sol_csv_calls dry_run o (n + 1) rest

/-- process_csv of mark_not_spam_solana.py: final counters and call
trace. -/
def process_csv_solana (dry_run : Bool) (o : SolOracle)
    (rows : List Dict) : SolStats × List NetCall :=
  (sol_csv_stats dry_run o 2 rows SolStats.init,
   sol_csv_calls dry_run o 2 rows)

/-- The flat counters of run.py process_csv (lines 83-85). -/
structure RunStats where
  successful : Nat
  failed : Nat
  skipped : Nat
deriving DecidableEq

def RunStats.init : RunStats := ⟨0, 0, 0⟩

/-- The environment of one run.py run, indexed by CSV row number. -/
structure RunOracle where
  resolve : Nat → HttpResult
  price : Nat → HttpResult

/-- Row validation of run.py process_csv (lines 91-103): blank (after
stripping) BSC address or CoinGecko id skips the row; the Name field is
read but never validated. -/
def run_row_skip (row : Dict) : Bool :=
  pyStrip (pyGetD row "BSC Deployed Address") == "" ||
  pyStrip (pyGetD row "CoinGecko API ID") == ""

/-- One row of run.py process_csv (lines 90-151): a skipped row bumps the
skipped counter; then resolve (falsy result is a failure), extract the id
(falsy id is a failure), issue update_asset_price unconditionally with the
dry_run form field (falsy response is a failure), and finally classify by
the presence of a non-empty stdout field: present counts successful,
absent counts failed.  Returns the updated counters and the calls
attempted. -/
def run_row (dry_run : Bool) (o : RunOracle) (row_num : Nat) (row : Dict)
    (s : RunStats) : RunStats × List NetCall :=
  let bsc_address := pyStrip (pyGetD row "BSC Deployed Address")
  if run_row_skip row then ({ s with skipped := s.skipped + 1 }, [])
  else
    match get_asset_info (o.resolve row_num) with
    | none => ({ s with failed := s.failed + 1 },
               [NetCall.resolveCall bsc_address "evm_56"])
    | some asset_info =>
      if asset_info.isEmpty then
        ({ s with failed := s.failed + 1 },
         [NetCall.resolveCall bsc_address "evm_56"])
      else
        match dictGet asset_info "id" with
        | none => ({ s with failed := s.failed + 1 },
                   [NetCall.resolveCall bsc_address "evm_56"])
        | some asset_id =>
          if asset_id == "" then
            ({ s with failed := s.failed + 1 },
             [NetCall.resolveCall bsc_address "evm_56"])
          else
            match update_asset_price (o.price row_num) with
            | none => ({ s with failed := s.failed + 1 },
                       [NetCall.resolveCall bsc_address "evm_56",
                        NetCall.updatePriceCall asset_id dry_run])
            | some price_response =>
              if price_response.isEmpty then
                ({ s with failed := s.failed + 1 },
                 [NetCall.resolveCall bsc_address "evm_56",
                  NetCall.updatePriceCall asset_id dry_run])
              else
                if pyGetD price_response "stdout" == "" then
                  ({ s with failed := s.failed + 1 },
                   [NetCall.resolveCall bsc_address "evm_56",
                    NetCall.updatePriceCall asset_id dry_run])
                else
                  ({ s with successful := s.successful + 1 },
                   [NetCall.resolveCall bsc_address "evm_56",
                    NetCall.updatePriceCall asset_id dry_run])

/-- The row loop of run.py process_csv: final counters and call trace. -/
def run_csv (dry_run : Bool) (o : RunOracle) :
    Nat → List Dict → RunStats → RunStats × List NetCall
  | _, [], s => (s, [])
  | n, row :: rest, s =>
    let p := run_row dry_run o n row s
    let q := run_csv dry_run o (n + 1) rest p.1
    (q.1, p.2 ++ q.2)

/-- process_csv of run.py. -/
def process_csv_run (dry_run : Bool) (o : RunOracle) (rows : List Dict) :
    RunStats × List NetCall :=
  run_csv dry_run o 2 rows RunStats.init

/-- Startup environment shared by the mains: the two bearer tokens as
os.getenv sees them, and whether the configured CSV file exists. -/
structure EnvConfig where
  bearer_token_asset : Option String
  bearer_token_pricing : Option String
  csv_file_exists : Bool

/-- main of mark_not_spam_evm.py (lines 223-258): exit 1 before any row
is processed when a bearer token is unset or empty or the CSV file is
missing; otherwise process_csv runs to completion and the script ends
with exit code 0.  Returns the exit code and the final counters when
processing ran (mark_not_spam_solana.py main, lines 206-241, has the
identical structure). -/
def main_evm (env : EnvConfig) (dry_run : Bool) (o : EvmOracle)
    (rows : List Dict) : Nat × Option EvmStats :=
  if pyFalsyOptStr env.bearer_token_asset then (1, none)
  else if pyFalsyOptStr env.bearer_token_pricing then (1, none)
  else if !env.csv_file_exists then (1, none)
  else (0, some (process_csv_evm dry_run o rows).1)

/-- The configured CSV path of run.py (line 17). -/
def CSV_FILE_RUN : String := "asset_list.csv"

/-- main of run.py (lines 163-187): exit 1 before any row is processed
when a bearer token is unset, empty, or equal to the placeholder value
eyJ, when the configured CSV path is empty, or when the CSV file is
missing; otherwise process_csv runs and the script ends with exit code
0. -/
def main_run (env : EnvConfig) (dry_run : Bool) (o : RunOracle)
    (rows : List Dict) : Nat × Option RunStats :=
  if pyFalsyOptStr env.bearer_token_asset ||
      env.bearer_token_asset == some "eyJ" then (1, none)
  else if pyFalsyOptStr env.bearer_token_pricing ||
      env.bearer_token_pricing == some "eyJ" then (1, none)
  else if CSV_FILE_RUN == "" then (1, none)
  else if !env.csv_file_exists then (1, none)
  else (0, some (process_csv_run dry_run o rows).1)

/-- Rows of a CSV that pass the EVM variant's validation. -/
def validCountEvm (rows : List Dict) : Nat :=
  (rows.filter (fun r => !evm_row_skip r)).length

/-- Rows of a CSV that pass the Solana variant's validation. -/
def validCountSol (rows : List Dict) : Nat :=
  (rows.filter (fun r => !sol_row_skip r)).length

/-- Total of the three recorded outcomes in one chain's bucket. -/
def cTotal (s : EvmStats) (c : String) : Nat :=
  (s.by_chain c).success + (s.by_chain c).failed + (s.by_chain c).not_found

/-- Per-chain total of the three recorded outcomes, summed over a chain
list. -/
def chainPairs (chains : List String) (s : EvmStats) : Nat :=
  (chains.map (cTotal s)).sum

/-- Sum of the per-chain success buckets over a chain list. -/
def successSum (chains : List String) (s : EvmStats) : Nat :=
  (chains.map (fun c => (s.by_chain c).success)).sum

/-- Sum of the per-chain failed buckets over a chain list. -/
def failedSum (chains : List String) (s : EvmStats) : Nat :=
  (chains.map (fun c => (s.by_chain c).failed)).sum

/-- The redundancy invariant of the multi-EVM-chain variant: the
run-wide counters coincide with the per-chain bucket sums. -/
def EvmInv (chains : List String) (s : EvmStats) : Prop :=
  s.processed_chains = successSum chains s ∧
  s.failed_chains = failedSum chains s

/-! ### Generic helper lemmas -/

lemma foldl_ext_fun {α : Type _} {β : Type _} (f g : α → β → α)
    (h : ∀ s x, f s x = g s x) :
    ∀ (l : List β) (s : α), l.foldl f s = l.foldl g s := by
  intro l
  induction l with
  | nil => intro s; rfl
  | cons a t ih =>
    intro s
    simp only [List.foldl_cons]
    rw [h]
    exact ih _

lemma sum_map_congr (l : List String) (f g : String → Nat)
    (h : ∀ x ∈ l, f x = g x) : (l.map f).sum = (l.map g).sum := by
  induction l with
  | nil => rfl
  | cons a t ih =>
    simp only [List.map_cons, List.sum_cons]
    rw [h a (List.mem_cons_self a t),
      ih (fun x hx => h x (List.mem_cons_of_mem a hx))]

lemma sum_map_bump (l : List String) (c : String) (f : String → Nat)
    (hnd : l.Nodup) (hc : c ∈ l) :
    (l.map (fun x => if x = c then f x + 1 else f x)).sum
      = (l.map f).sum + 1 := by
  induction l with
  | nil => cases hc
  | cons a t ih =>
    rcases List.nodup_cons.mp hnd with ⟨ha, ht⟩
    simp only [List.map_cons, List.sum_cons]
    by_cases hac : a = c
    · subst hac
      rw [if_pos rfl,
        sum_map_congr t _ f (fun x hx => by
          have hxa : ¬ x = a := by
            intro he
            exact ha (he ▸ hx)
          rw [if_neg hxa])]
      omega
    · rw [if_neg hac]
      have hct : c ∈ t := by
        rcases List.mem_cons.mp hc with h1 | h1
        · exact absurd h1.symm hac
        · exact h1
      rw [ih ht hct]
      omega

/-! ### Pointwise facts about the EVM counter updates -/

lemma apply_outcome_by_chain (s : EvmStats) (chain : String)
    (oc : ChainOutcome) (x : String) (hx : x ≠ chain) :
    (evm_apply_outcome s chain oc).by_chain x = s.by_chain x := by
  cases oc <;> simp [evm_apply_outcome, hx]

lemma apply_outcome_total_rows (s : EvmStats) (chain : String)
    (oc : ChainOutcome) :
    (evm_apply_outcome s chain oc).total_rows = s.total_rows := by
  cases oc <;> rfl

lemma apply_outcome_skipped_count (s : EvmStats) (chain : String)
    (oc : ChainOutcome) (h : oc ≠ ChainOutcome.skipped) :
    (evm_apply_outcome s chain oc).skipped = s.skipped := by
  cases oc with
  | success => rfl
  | failed => rfl
  | notFound => rfl
  | skipped => exact absurd rfl h

lemma apply_outcome_cTotal (s : EvmStats) (chain : String)
    (oc : ChainOutcome) (h : oc ≠ ChainOutcome.skipped) (x : String) :
    cTotal (evm_apply_outcome s chain oc) x =
      if x = chain then cTotal s x + 1 else cTotal s x := by
  by_cases hx : x = chain
  · subst hx
    rw [if_pos rfl]
    cases oc with
    | success => simp [evm_apply_outcome, cTotal]; omega
    | failed => simp [evm_apply_outcome, cTotal]; omega
    | notFound => simp [evm_apply_outcome, cTotal]; omega
    | skipped => exact absurd rfl h
  · rw [if_neg hx]
    unfold cTotal
    rw [apply_outcome_by_chain s chain oc x hx]

lemma apply_outcome_success_pt (s : EvmStats) (chain x : String) :
    ((evm_apply_outcome s chain ChainOutcome.success).by_chain x).success =
      if x = chain then (s.by_chain x).success + 1
      else (s.by_chain x).success := by
  by_cases hx : x = chain <;> simp [evm_apply_outcome, hx]

lemma apply_outcome_success_other (s : EvmStats) (chain : String)
    (oc : ChainOutcome) (x : String) (h : oc ≠ ChainOutcome.success) :
    ((evm_apply_outcome s chain oc).by_chain x).success =
      (s.by_chain x).success := by
  cases oc with
  | success => exact absurd rfl h
  | failed => by_cases hx : x = chain <;> simp [evm_apply_outcome, hx]
  | notFound => by_cases hx : x = chain <;> simp [evm_apply_outcome, hx]
  | skipped => rfl

lemma apply_outcome_failed_pt (s : EvmStats) (chain x : String) :
    ((evm_apply_outcome s chain ChainOutcome.failed).by_chain x).failed =
      if x = chain then (s.by_chain x).failed + 1
      else (s.by_chain x).failed := by
  by_cases hx : x = chain <;> simp [evm_apply_outcome, hx]

lemma apply_outcome_failed_other (s : EvmStats) (chain : String)
    (oc : ChainOutcome) (x : String) (h : oc ≠ ChainOutcome.failed) :
    ((evm_apply_outcome s chain oc).by_chain x).failed =
      (s.by_chain x).failed := by
  cases oc with
  | success => by_cases hx : x = chain <;> simp [evm_apply_outcome, hx]
  | failed => exact absurd rfl h
  | notFound => by_cases hx : x = chain <;> simp [evm_apply_outcome, hx]
  | skipped => rfl

lemma apply_outcome_processed (s : EvmStats) (chain : String)
    (oc : ChainOutcome) :
    (evm_apply_outcome s chain oc).processed_chains =
      if oc = ChainOutcome.success then s.processed_chains + 1
      else s.processed_chains := by
  cases oc <;> simp [evm_apply_outcome]

lemma apply_outcome_failed_chains (s : EvmStats) (chain : String)
    (oc : ChainOutcome) :
    (evm_apply_outcome s chain oc).failed_chains =
      if oc = ChainOutcome.failed then s.failed_chains + 1
      else s.failed_chains := by
  cases oc <;> simp [evm_apply_outcome]

/-! ### Facts about the shared resolve-then-mutate step -/

lemma step_notFound_of_falsy (dry_run : Bool) (address chain : String)
    (rr mr : HttpResult) (h : pyTruthyDictOpt (get_asset_info rr) = false) :
    mark_not_spam_step dry_run address chain rr mr =
      (ChainOutcome.notFound, [NetCall.resolveCall address chain]) := by
  unfold mark_not_spam_step
  cases hre : get_asset_info rr with
  | none => rfl
  | some d =>
    rw [hre] at h
    simp only [pyTruthyDictOpt, Bool.not_eq_false'] at h
    simp [h]

lemma step_failed_of_no_id (dry_run : Bool) (address chain : String)
    (rr mr : HttpResult) (d : Dict) (hre : get_asset_info rr = some d)
    (hne : d.isEmpty = false)
    (hid : pyTruthyStrOpt (dictGet d "id") = false) :
    mark_not_spam_step dry_run address chain rr mr =
      (ChainOutcome.failed, [NetCall.resolveCall address chain]) := by
  unfold mark_not_spam_step
  rw [hre]
  simp only [hne]
  cases hg : dictGet d "id" with
  | none => simp
  | some asset_id =>
    rw [hg] at hid
    simp only [pyTruthyStrOpt, Bool.not_eq_false'] at hid
    simp [hid]

lemma step_never_skipped (dry_run : Bool) (address chain : String)
    (rr mr : HttpResult) :
    (mark_not_spam_step dry_run address chain rr mr).1 ≠
      ChainOutcome.skipped := by
  unfold mark_not_spam_step
  cases get_asset_info rr with
  | none => simp
  | some d =>
    by_cases hne : d.isEmpty <;> simp only [hne]
    · simp
    · simp only [Bool.false_eq_true, if_false]
      cases dictGet d "id" with
      | none => simp
      | some asset_id =>
        by_cases hq : asset_id == "" <;> simp only [hq]
        · simp
        · by_cases hd : dry_run <;>
            by_cases hm : mark_asset_not_spam mr <;>
            simp [hd, hm]

lemma step_dry_calls (address chain : String) (rr mr : HttpResult) :
    (mark_not_spam_step true address chain rr mr).2 =
      [NetCall.resolveCall address chain] := by
  unfold mark_not_spam_step
  cases get_asset_info rr with
  | none => simp
  | some d =>
    by_cases hne : d.isEmpty <;> simp only [hne]
    · simp
    · simp only [Bool.false_eq_true, if_false]
      cases dictGet d "id" with
      | none => simp
      | some asset_id =>
        by_cases hq : asset_id == "" <;> simp [hq]

lemma step_dry_outcome (address chain : String) (rr mr : HttpResult) :
    (mark_not_spam_step true address chain rr mr).1 =
      (mark_not_spam_step false address chain rr
        (HttpResult.response 200 none)).1 := by
  unfold mark_not_spam_step
  cases get_asset_info rr with
  | none => rfl
  | some d =>
    by_cases hne : d.isEmpty <;> simp only [hne]
    · simp
    · simp only [Bool.false_eq_true, if_false]
      cases dictGet d "id" with
      | none => simp
      | some asset_id =>
        by_cases hq : asset_id == "" <;> simp [hq, mark_asset_not_spam]

/-! ### Invariant preservation of the EVM counter updates -/

lemma chainPairs_apply (chains : List String) (hnd : chains.Nodup)
    (s : EvmStats) (c : String) (hc : c ∈ chains) (oc : ChainOutcome)
    (hoc : oc ≠ ChainOutcome.skipped) :
    chainPairs chains (evm_apply_outcome s c oc) = chainPairs chains s + 1 := by
  unfold chainPairs
  rw [sum_map_congr chains _
    (fun x => if x = c then cTotal s x + 1 else cTotal s x)
    (fun x _ => apply_outcome_cTotal s c oc hoc x)]
  exact sum_map_bump chains c (cTotal s) hnd hc

lemma EvmInv_apply (chains : List String) (hnd : chains.Nodup)
    (s : EvmStats) (c : String) (oc : ChainOutcome) (hc : c ∈ chains)
    (h : EvmInv chains s) : EvmInv chains (evm_apply_outcome s c oc) := by
  obtain ⟨h1, h2⟩ := h
  cases oc with
  | success =>
    constructor
    · have hsum : successSum chains (evm_apply_outcome s c ChainOutcome.success)
          = successSum chains s + 1 := by
        unfold successSum
        rw [sum_map_congr chains _
          (fun x => if x = c then (s.by_chain x).success + 1
            else (s.by_chain x).success)
          (fun x _ => apply_outcome_success_pt s c x)]
        exact sum_map_bump chains c (fun x => (s.by_chain x).success) hnd hc
      rw [apply_outcome_processed, hsum, if_pos rfl, h1]
    · have hsum : failedSum chains (evm_apply_outcome s c ChainOutcome.success)
          = failedSum chains s := by
        unfold failedSum
        exact sum_map_congr chains _ _
          (fun x _ => apply_outcome_failed_other s c ChainOutcome.success x
            (by intro hh; cases hh))
      rw [apply_outcome_failed_chains, hsum, if_neg (by intro hh; cases hh), h2]
  | failed =>
    constructor
    · have hsum : successSum chains (evm_apply_outcome s c ChainOutcome.failed)
          = successSum chains s := by
        unfold successSum
        exact sum_map_congr chains _ _
          (fun x _ => apply_outcome_success_other s c ChainOutcome.failed x
            (by intro hh; cases hh))
      rw [apply_outcome_processed, hsum, if_neg (by intro hh; cases hh), h1]
    · have hsum : failedSum chains (evm_apply_outcome s c ChainOutcome.failed)
          = failedSum chains s + 1 := by
        unfold failedSum
        rw [sum_map_congr chains _
          (fun x => if x = c then (s.by_chain x).failed + 1
            else (s.by_chain x).failed)
          (fun x _ => apply_outcome_failed_pt s c x)]
        exact sum_map_bump chains c (fun x => (s.by_chain x).failed) hnd hc
      rw [apply_outcome_failed_chains, hsum, if_pos rfl, h2]
  | notFound =>
    constructor
    · have hsum : successSum chains (evm_apply_outcome s c ChainOutcome.notFound)
          = successSum chains s := by
        unfold successSum
        exact sum_map_congr chains _ _
          (fun x _ => apply_outcome_success_other s c ChainOutcome.notFound x
            (by intro hh; cases hh))
      rw [apply_outcome_processed, hsum, if_neg (by intro hh; cases hh), h1]
    · have hsum : failedSum chains (evm_apply_outcome s c ChainOutcome.notFound)
          = failedSum chains s := by
        unfold failedSum
        exact sum_map_congr chains _ _
          (fun x _ => apply_outcome_failed_other s c ChainOutcome.notFound x
            (by intro hh; cases hh))
      rw [apply_outcome_failed_chains, hsum, if_neg (by intro hh; cases hh), h2]
  | skipped => exact ⟨h1, h2⟩

/-! ### Fold-level lemmas over the chain list -/

lemma fold_outcomes_total_rows (outc : String → ChainOutcome) :
    ∀ (l : List String) (s : EvmStats),
      (l.foldl (fun st c => evm_apply_outcome st c (outc c)) s).total_rows
        = s.total_rows := by
  intro l
  induction l with
  | nil => intro s; rfl
  | cons a t ih =>
    intro s
    simp only [List.foldl_cons]
    rw [ih, apply_outcome_total_rows]

lemma fold_outcomes_skipped (outc : String → ChainOutcome)
    (hoc : ∀ c, outc c ≠ ChainOutcome.skipped) :
    ∀ (l : List String) (s : EvmStats),
      (l.foldl (fun st c => evm_apply_outcome st c (outc c)) s).skipped
        = s.skipped := by
  intro l
  induction l with
  | nil => intro s; rfl
  | cons a t ih =>
    intro s
    simp only [List.foldl_cons]
    rw [ih, apply_outcome_skipped_count _ _ _ (hoc a)]

lemma fold_outcomes_chainPairs (chains : List String) (hnd : chains.Nodup)
    (outc : String → ChainOutcome)
    (hoc : ∀ c, outc c ≠ ChainOutcome.skipped) :
    ∀ (l : List String), (∀ x ∈ l, x ∈ chains) →
      ∀ (s : EvmStats),
        chainPairs chains
            (l.foldl (fun st c => evm_apply_outcome st c (outc c)) s)
          = chainPairs chains s + l.length := by
  intro l
  induction l with
  | nil => intro _ s; rfl
  | cons a t ih =>
    intro hsub s
    simp only [List.foldl_cons, List.length_cons]
    rw [ih (fun x hx => hsub x (List.mem_cons_of_mem a hx)),
      chainPairs_apply chains hnd s a (hsub a (List.mem_cons_self a t))
        (outc a) (hoc a)]
    omega

lemma fold_outcomes_inv (chains : List String) (hnd : chains.Nodup)
    (outc : String → ChainOutcome) :
    ∀ (l : List String), (∀ x ∈ l, x ∈ chains) →
      ∀ (s : EvmStats), EvmInv chains s →
        EvmInv chains
          (l.foldl (fun st c => evm_apply_outcome st c (outc c)) s) := by
  intro l
  induction l with
  | nil => intro _ s h; exact h
  | cons a t ih =>
    intro hsub s h
    simp only [List.foldl_cons]
    exact ih (fun x hx => hsub x (List.mem_cons_of_mem a hx)) _
      (EvmInv_apply chains hnd s a (outc a) (hsub a (List.mem_cons_self a t)) h)

/-! ### Row- and run-level counter lemmas, EVM variant -/

lemma evm_row_stats_total (chains : List String) (dry_run : Bool)
    (o : EvmOracle) (n : Nat) (row : Dict) (s : EvmStats) :
    (evm_row_stats chains dry_run o n row s).total_rows
      = s.total_rows + (if evm_row_skip row then 0 else 1) := by
  cases hskip : evm_row_skip row
  · simp only [evm_row_stats, hskip, Bool.false_eq_true, if_false]
    rw [fold_outcomes_total_rows]
  · simp [evm_row_stats, hskip]

lemma evm_row_stats_skipped (chains : List String) (dry_run : Bool)
    (o : EvmOracle) (n : Nat) (row : Dict) (s : EvmStats) :
    (evm_row_stats chains dry_run o n row s).skipped = s.skipped := by
  cases hskip : evm_row_skip row
  · simp only [evm_row_stats, hskip, Bool.false_eq_true, if_false]
    rw [fold_outcomes_skipped _
      (fun c => step_never_skipped dry_run (pyStrip (pyGetD row "EVM address"))
        c (o.resolve n c) (o.mark n c))]
  · simp [evm_row_stats, hskip]

lemma evm_row_stats_chainPairs (chains : List String) (hnd : chains.Nodup)
    (dry_run : Bool) (o : EvmOracle) (n : Nat) (row : Dict) (s : EvmStats) :
    chainPairs chains (evm_row_stats chains dry_run o n row s)
      = chainPairs chains s
        + (if evm_row_skip row then 0 else chains.length) := by
  cases hskip : evm_row_skip row
  · simp only [evm_row_stats, hskip, Bool.false_eq_true, if_false]
    rw [fold_outcomes_chainPairs chains hnd _
      (fun c => step_never_skipped dry_run (pyStrip (pyGetD row "EVM address"))
        c (o.resolve n c) (o.mark n c))
      chains (fun x hx => hx)]
    have hcp : chainPairs chains { s with total_rows := s.total_rows + 1 }
        = chainPairs chains s := rfl
    rw [hcp]
  · simp [evm_row_stats, hskip]

lemma evm_row_stats_inv (chains : List String) (hnd : chains.Nodup)
    (dry_run : Bool) (o : EvmOracle) (n : Nat) (row : Dict) (s : EvmStats)
    (h : EvmInv chains s) :
    EvmInv chains (evm_row_stats chains dry_run o n row s) := by
  cases hskip : evm_row_skip row
  · simp only [evm_row_stats, hskip, Bool.false_eq_true, if_false]
    exact fold_outcomes_inv chains hnd _ chains (fun x hx => hx) _ h
  · simpa [evm_row_stats, hskip] using h

lemma validCountEvm_cons (r : Dict) (t : List Dict) :
    validCountEvm (r :: t)
      = (if evm_row_skip r then 0 else 1) + validCountEvm t := by
  unfold validCountEvm
  cases hskip : evm_row_skip r <;> simp [List.filter_cons, hskip] <;> omega

lemma evm_csv_stats_total (chains : List String) (dry_run : Bool)
    (o : EvmOracle) :
    ∀ (rows : List Dict) (n : Nat) (s : EvmStats),
      (evm_csv_stats chains dry_run o n rows s).total_rows
        = s.total_rows + validCountEvm rows := by
  intro rows
  induction rows with
  | nil => intro n s; simp [evm_csv_stats, validCountEvm]
  | cons r t ih =>
    intro n s
    simp only [evm_csv_stats]
    rw [ih, evm_row_stats_total, validCountEvm_cons]
    omega

lemma evm_csv_stats_skipped (chains : List String) (dry_run : Bool)
    (o : EvmOracle) :
    ∀ (rows : List Dict) (n : Nat) (s : EvmStats),
      (evm_csv_stats chains dry_run o n rows s).skipped = s.skipped := by
  intro rows
  induction rows with
  | nil => intro n s; rfl
  | cons r t ih =>
    intro n s
    simp only [evm_csv_stats]
    rw [ih, evm_row_stats_skipped]

lemma evm_csv_stats_chainPairs (chains : List String) (hnd : chains.Nodup)
    (dry_run : Bool) (o : EvmOracle) :
    ∀ (rows : List Dict) (n : Nat) (s : EvmStats),
      chainPairs chains (evm_csv_stats chains dry_run o n rows s)
        = chainPairs chains s + validCountEvm rows * chains.length := by
  intro rows
  induction rows with
  | nil => intro n s; simp [evm_csv_stats, validCountEvm]
  | cons r t ih =>
    intro n s
    simp only [evm_csv_stats]
    rw [ih, evm_row_stats_chainPairs chains hnd, validCountEvm_cons]
    cases hskip : evm_row_skip r <;> simp <;> ring

lemma evm_csv_stats_inv (chains : List String) (hnd : chains.Nodup)
    (dry_run : Bool) (o : EvmOracle) :
    ∀ (rows : List Dict) (n : Nat) (s : EvmStats), EvmInv chains s →
      EvmInv chains (evm_csv_stats chains dry_run o n rows s) := by
  intro rows
  induction rows with
  | nil => intro n s h; exact h
  | cons r t ih =>
    intro n s h
    simp only [evm_csv_stats]
    exact ih _ _ (evm_row_stats_inv chains hnd dry_run o n r s h)

/-! ### Row- and run-level counter lemmas, Solana variant -/

lemma sol_apply_outcome_total (s : SolStats) (oc : ChainOutcome) :
    (sol_apply_outcome s oc).total_rows = s.total_rows := by
  cases oc <;> rfl

lemma sol_apply_outcome_sum (s : SolStats) (oc : ChainOutcome) :
    (sol_apply_outcome s oc).skipped + (sol_apply_outcome s oc).success
        + (sol_apply_outcome s oc).failed + (sol_apply_outcome s oc).not_found
      = s.skipped + s.success + s.failed + s.not_found + 1 := by
  cases oc <;> simp [sol_apply_outcome] <;> omega

lemma sol_row_stats_total (dry_run : Bool) (o : SolOracle) (n : Nat)
    (row : Dict) (s : SolStats) :
    (sol_row_stats dry_run o n row s).total_rows
      = s.total_rows + (if sol_row_skip row then 0 else 1) := by
  cases hskip : sol_row_skip row
  · simp only [sol_row_stats, hskip, Bool.false_eq_true, if_false]
    rw [sol_apply_outcome_total]
  · simp [sol_row_stats, hskip]

lemma sol_row_stats_sum (dry_run : Bool) (o : SolOracle) (n : Nat)
    (row : Dict) (s : SolStats) :
    (sol_row_stats dry_run o n row s).skipped
        + (sol_row_stats dry_run o n row s).success
        + (sol_row_stats dry_run o n row s).failed
        + (sol_row_stats dry_run o n row s).not_found
      = s.skipped + s.success + s.failed + s.not_found
        + (if sol_row_skip row then 0 else 1) := by
  cases hskip : sol_row_skip row
  · simp only [sol_row_stats, hskip, Bool.false_eq_true, if_false]
    rw [sol_apply_outcome_sum]
  · simp [sol_row_stats, hskip]

lemma validCountSol_cons (r : Dict) (t : List Dict) :
    validCountSol (r :: t)
      = (if sol_row_skip r then 0 else 1) + validCountSol t := by
  unfold validCountSol
  cases hskip : sol_row_skip r <;> simp [List.filter_cons, hskip] <;> omega

lemma sol_csv_stats_total (dry_run : Bool) (o : SolOracle) :
    ∀ (rows : List Dict) (n : Nat) (s : SolStats),
      (sol_csv_stats dry_run o n rows s).total_rows
        = s.total_rows + validCountSol rows := by
  intro rows
  induction rows with
  | nil => intro n s; simp [sol_csv_stats, validCountSol]
  | cons r t ih =>
    intro n s
    simp only [sol_csv_stats]
    rw [ih, sol_row_stats_total, validCountSol_cons]
    omega

lemma sol_csv_stats_sum (dry_run : Bool) (o : SolOracle) :
    ∀ (rows : List Dict) (n : Nat) (s : SolStats),
      (sol_csv_stats dry_run o n rows s).skipped
          + (sol_csv_stats dry_run o n rows s).success
          + (sol_csv_stats dry_run o n rows s).failed
          + (sol_csv_stats dry_run o n rows s).not_found
        = s.skipped + s.success + s.failed + s.not_found
          + validCountSol rows := by
  intro rows
  induction rows with
  | nil => intro n s; simp [sol_csv_stats, validCountSol]
  | cons r t ih =>
    intro n s
    simp only [sol_csv_stats]
    rw [ih, sol_row_stats_sum, validCountSol_cons]
    omega

/-! ### Row- and run-level counter lemmas, price-update variant -/

lemma run_row_sum (dry_run : Bool) (o : RunOracle) (n : Nat) (row : Dict)
    (s : RunStats) :
    (run_row dry_run o n row s).1.successful + (run_row dry_run o n row s).1.failed
        + (run_row dry_run o n row s).1.skipped
      = s.successful + s.failed + s.skipped + 1 := by
  unfold run_row
  cases hskip : run_row_skip row <;> simp only [hskip, Bool.false_eq_true,
    if_false, if_true]
  · cases hre : get_asset_info (o.resolve n) with
    | none => simp; omega
    | some asset_info =>
      by_cases hne : asset_info.isEmpty <;> simp only [hne, if_true,
        Bool.false_eq_true, if_false]
      · try simp
        omega
      · cases hid : dictGet asset_info "id" with
        | none => simp; omega
        | some asset_id =>
          by_cases hq : asset_id == "" <;> simp only [hq, if_true,
            Bool.false_eq_true, if_false]
          · try simp
            omega
          · cases hup : update_asset_price (o.price n) with
            | none => simp; omega
            | some resp =>
              by_cases hpe : resp.isEmpty <;> simp only [hpe, if_true,
                Bool.false_eq_true, if_false]
              · try simp
                omega
              · by_cases hso : pyGetD resp "stdout" == "" <;>
                  simp [hso] <;> omega
  · try simp
    omega

lemma run_csv_sum (dry_run : Bool) (o : RunOracle) :
    ∀ (rows : List Dict) (n : Nat) (s : RunStats),
      (run_csv dry_run o n rows s).1.successful
          + (run_csv dry_run o n rows s).1.failed
          + (run_csv dry_run o n rows s).1.skipped
        = s.successful + s.failed + s.skipped + rows.length := by
  intro rows
  induction rows with
  | nil => intro n s; rfl
  | cons r t ih =>
    intro n s
    simp only [run_csv]
    rw [ih, run_row_sum]
    simp [List.length_cons]
    omega

/-! ### Dry-run versus live-run lemmas -/

lemma evm_row_stats_dry (chains : List String) (o : EvmOracle) (n : Nat)
    (row : Dict) (s : EvmStats) :
    evm_row_stats chains true o n row s
      = evm_row_stats chains false
          { o with mark := fun _ _ => HttpResult.response 200 none }
          n row s := by
  unfold evm_row_stats
  cases hskip : evm_row_skip row <;> simp only [hskip, Bool.false_eq_true,
    if_false, if_true]
  apply foldl_ext_fun
  intro st chain
  exact congrArg (evm_apply_outcome st chain) (step_dry_outcome _ _ _ _)

lemma evm_csv_stats_dry (chains : List String) (o : EvmOracle) :
    ∀ (rows : List Dict) (n : Nat) (s : EvmStats),
      evm_csv_stats chains true o n rows s
        = evm_csv_stats chains false
            { o with mark := fun _ _ => HttpResult.response 200 none }
            n rows s := by
  intro rows
  induction rows with
  | nil => intro n s; rfl
  | cons r t ih =>
    intro n s
    simp only [evm_csv_stats]
    rw [evm_row_stats_dry]
    exact ih _ _

lemma sol_row_stats_dry (o : SolOracle) (n : Nat) (row : Dict)
    (s : SolStats) :
    sol_row_stats true o n row s
      = sol_row_stats false
          { o with mark := fun _ => HttpResult.response 200 none } n row s := by
  unfold sol_row_stats
  cases hskip : sol_row_skip row <;> simp only [hskip, Bool.false_eq_true,
    if_false, if_true]
  exact congrArg (sol_apply_outcome _) (step_dry_outcome _ _ _ _)

lemma sol_csv_stats_dry (o : SolOracle) :
    ∀ (rows : List Dict) (n : Nat) (s : SolStats),
      sol_csv_stats true o n rows s
        = sol_csv_stats false
            { o with mark := fun _ => HttpResult.response 200 none }
            n rows s := by
  intro rows
  induction rows with
  | nil => intro n s; rfl
  | cons r t ih =>
    intro n s
    simp only [sol_csv_stats]
    rw [sol_row_stats_dry]
    exact ih _ _

lemma evm_row_calls_dry_no_mutation (chains : List String) (o : EvmOracle)
    (n : Nat) (row : Dict) :
    ∀ nc ∈ evm_row_calls chains true o n row, NetCall.isMutation nc = false := by
  intro nc hnc
  unfold evm_row_calls at hnc
  cases hskip : evm_row_skip row
  · rw [hskip] at hnc
    simp only [Bool.false_eq_true, if_false] at hnc
    rw [List.mem_flatten] at hnc
    obtain ⟨l, hl, hncl⟩ := hnc
    rw [List.mem_map] at hl
    obtain ⟨chain, hchain, hleq⟩ := hl
    rw [← hleq, step_dry_calls] at hncl
    simp only [List.mem_singleton] at hncl
    rw [hncl]
    rfl
  · rw [hskip] at hnc
    simp at hnc

lemma evm_csv_calls_dry_no_mutation (chains : List String) (o : EvmOracle) :
    ∀ (rows : List Dict) (n : Nat) (nc : NetCall),
      nc ∈ evm_csv_calls chains true o n rows →
        NetCall.isMutation nc = false := by
  intro rows
  induction rows with
  | nil => intro n nc hnc; simp [evm_csv_calls] at hnc
  | cons r t ih =>
    intro n nc hnc
    simp only [evm_csv_calls, List.mem_append] at hnc
    rcases hnc with hnc | hnc
    · exact evm_row_calls_dry_no_mutation chains o n r nc hnc
    · exact ih _ _ hnc

lemma sol_row_calls_dry_no_mutation (o : SolOracle) (n : Nat) (row : Dict) :
    ∀ nc ∈ sol_row_calls true o n row, NetCall.isMutation nc = false := by
  intro nc hnc
  unfold sol_row_calls at hnc
  cases hskip : sol_row_skip row
  · rw [hskip] at hnc
    simp only [Bool.false_eq_true, if_false] at hnc
    rw [step_dry_calls] at hnc
    simp only [List.mem_singleton] at hnc
    rw [hnc]
    rfl
  · rw [hskip] at hnc
    simp at hnc

lemma sol_csv_calls_dry_no_mutation (o : SolOracle) :
    ∀ (rows : List Dict) (n : Nat) (nc : NetCall),
      nc ∈ sol_csv_calls true o n rows → NetCall.isMutation nc = false := by
  intro rows
  induction rows with
  | nil => intro n nc hnc; simp [sol_csv_calls] at hnc
  | cons r t ih =>
    intro n nc hnc
    simp only [sol_csv_calls, List.mem_append] at hnc
    rcases hnc with hnc | hnc
    · exact sol_row_calls_dry_no_mutation o n r nc hnc
    · exact ih _ _ hnc

/-! ### Branch lemmas for the price-update row -/

lemma run_row_mutation_call (dry_run : Bool) (o : RunOracle) (n : Nat)
    (row : Dict) (s : RunStats) (asset_info : Dict) (asset_id : String)
    (hskip : run_row_skip row = false)
    (hre : get_asset_info (o.resolve n) = some asset_info)
    (hne : asset_info.isEmpty = false)
    (hid : dictGet asset_info "id" = some asset_id)
    (hq : (asset_id == "") = false) :
    NetCall.updatePriceCall asset_id dry_run ∈ (run_row dry_run o n row s).2 := by
  unfold run_row
  simp only [hskip, Bool.false_eq_true, if_false, hre, hne, hid, hq]
  cases hup : update_asset_price (o.price n) with
  | none => simp
  | some resp =>
    by_cases hpe : resp.isEmpty <;> simp only [hpe, if_true,
      Bool.false_eq_true, if_false]
    · simp
    · by_cases hso : pyGetD resp "stdout" == "" <;> simp [hso]

lemma run_row_no_stdout_failed (dry_run : Bool) (o : RunOracle) (n : Nat)
    (row : Dict) (s : RunStats) (asset_info resp : Dict) (asset_id : String)
    (hskip : run_row_skip row = false)
    (hre : get_asset_info (o.resolve n) = some asset_info)
    (hne : asset_info.isEmpty = false)
    (hid : dictGet asset_info "id" = some asset_id)
    (hq : (asset_id == "") = false)
    (hup : update_asset_price (o.price n) = some resp)
    (hpe : resp.isEmpty = false)
    (hso : (pyGetD resp "stdout" == "") = true) :
    (run_row dry_run o n row s).1 = { s with failed := s.failed + 1 } := by
  unfold run_row
  simp only [hskip, Bool.false_eq_true, if_false, hre, hne, hid, hq, hup,
    hpe, hso, if_true]

/-! ### Initial-state facts -/

lemma sum_map_zero (l : List String) :
    (l.map (fun _ => (0 : Nat))).sum = 0 := by
  induction l <;> simp [*]

lemma chainPairs_init (chains : List String) :
    chainPairs chains EvmStats.init = 0 := by
  unfold chainPairs
  rw [sum_map_congr chains (cTotal EvmStats.init) (fun _ => 0)
    (fun x _ => rfl)]
  exact sum_map_zero chains

lemma successSum_init (chains : List String) :
    successSum chains EvmStats.init = 0 := by
  unfold successSum
  rw [sum_map_congr chains
    (fun c => (EvmStats.init.by_chain c).success) (fun _ => 0)
    (fun x _ => rfl)]
  exact sum_map_zero chains

lemma failedSum_init (chains : List String) :
    failedSum chains EvmStats.init = 0 := by
  unfold failedSum
  rw [sum_map_congr chains
    (fun c => (EvmStats.init.by_chain c).failed) (fun _ => 0)
    (fun x _ => rfl)]
  exact sum_map_zero chains

lemma EvmInv_init (chains : List String) : EvmInv chains EvmStats.init := by
  constructor
  · rw [successSum_init]
    rfl
  · rw [failedSum_init]
    rfl

/-! ### Claim C2 -/

/-- C2 counterexample: a resolution call that fails with HTTP 500 — an
error other than not-found — is recorded as NotFound, not as Failed, so
the claimed taxonomy does not hold on the code. -/
theorem C2_counterexample :
    (mark_not_spam_step false "0xabc" "evm_56"
        (HttpResult.response 500 (some [("detail", "boom")]))
        (HttpResult.response 200 none)).1 = ChainOutcome.notFound ∧
    ChainOutcome.notFound ≠ ChainOutcome.failed := by
  decide

/-- C2 (amended): every resolution failure observable at the caller —
transport failure, any error status (404 and 500 alike), or an
unparsable or empty body — records NotFound and skips the mutation;
Failed is recorded, also without mutation, exactly when resolution
yields a non-empty object whose id field is missing or empty. -/
theorem C2_resolution_failure_taxonomy :
    (∀ (dry_run : Bool) (address chain : String) (rr mr : HttpResult),
        pyTruthyDictOpt (get_asset_info rr) = false →
          mark_not_spam_step dry_run address chain rr mr =
            (ChainOutcome.notFound, [NetCall.resolveCall address chain])) ∧
    (∀ (dry_run : Bool) (address chain : String) (rr mr : HttpResult)
        (d : Dict), get_asset_info rr = some d → d.isEmpty = false →
          pyTruthyStrOpt (dictGet d "id") = false →
          mark_not_spam_step dry_run address chain rr mr =
            (ChainOutcome.failed, [NetCall.resolveCall address chain])) ∧
    (∀ (status : Nat) (body : Option Dict), 400 ≤ status →
        get_asset_info (HttpResult.response status body) = none) ∧
    get_asset_info HttpResult.transportError = none := by
  refine ⟨?_, ?_, ?_, rfl⟩
  · intro dry_run address chain rr mr h
    exact step_notFound_of_falsy dry_run address chain rr mr h
  · intro dry_run address chain rr mr d hre hne hid
    exact step_failed_of_no_id dry_run address chain rr mr d hre hne hid
  · intro status body h
    simp [get_asset_info, h]

/-- C2 witness: the amended taxonomy evaluated at concrete inputs. -/
theorem C2_resolution_failure_taxonomy_witness :
    mark_not_spam_step false "0xabc" "evm_56" HttpResult.transportError
        (HttpResult.response 200 none) =
      (ChainOutcome.notFound, [NetCall.resolveCall "0xabc" "evm_56"]) ∧
    mark_not_spam_step false "0xabc" "evm_56"
        (HttpResult.response 200 (some [("name", "TokenX")]))
        (HttpResult.response 200 none) =
      (ChainOutcome.failed, [NetCall.resolveCall "0xabc" "evm_56"]) :=
  ⟨C2_resolution_failure_taxonomy.1 false "0xabc" "evm_56"
      HttpResult.transportError (HttpResult.response 200 none) (by decide),
   C2_resolution_failure_taxonomy.2.1 false "0xabc" "evm_56"
      (HttpResult.response 200 (some [("name", "TokenX")]))
      (HttpResult.response 200 none) [("name", "TokenX")]
      (by decide) (by decide) (by decide)⟩

/-! ### Claim C6 -/

/-- C6: when resolution comes back falsy — in particular on the
service's 404 not-found — the mutation call is never attempted for the
pair and the not_found counter of that chain increments by exactly one
while every other counter and bucket is untouched (both variants). -/
theorem C6_not_found_no_mutation :
    (∀ (dry_run : Bool) (address chain : String) (rr mr : HttpResult),
        pyTruthyDictOpt (get_asset_info rr) = false →
          mark_not_spam_step dry_run address chain rr mr =
            (ChainOutcome.notFound, [NetCall.resolveCall address chain])) ∧
    (∀ (s : EvmStats) (chain : String),
        ((evm_apply_outcome s chain ChainOutcome.notFound).by_chain chain).not_found
            = (s.by_chain chain).not_found + 1 ∧
          ((evm_apply_outcome s chain ChainOutcome.notFound).by_chain chain).success
            = (s.by_chain chain).success ∧
          ((evm_apply_outcome s chain ChainOutcome.notFound).by_chain chain).failed
            = (s.by_chain chain).failed ∧
          (∀ (x : String), x ≠ chain →
            (evm_apply_outcome s chain ChainOutcome.notFound).by_chain x
              = s.by_chain x)) ∧
    (∀ (s : SolStats), sol_apply_outcome s ChainOutcome.notFound =
        { s with not_found := s.not_found + 1 }) ∧
    (∀ (address chain : String),
        NetCall.isMutation (NetCall.resolveCall address chain) = false) := by
  refine ⟨?_, ?_, fun s => rfl, fun address chain => rfl⟩
  · intro dry_run address chain rr mr h
    exact step_notFound_of_falsy dry_run address chain rr mr h
  · intro s chain
    refine ⟨?_, ?_, ?_, ?_⟩
    · simp [evm_apply_outcome]
    · simp [evm_apply_outcome]
    · simp [evm_apply_outcome]
    · intro x hx
      exact apply_outcome_by_chain s chain ChainOutcome.notFound x hx

/-- C6 witness: an HTTP 404 resolution on a concrete pair. -/
theorem C6_not_found_no_mutation_witness :
    pyTruthyDictOpt (get_asset_info (HttpResult.response 404 none)) = false ∧
    mark_not_spam_step false "0xabc" "evm_56" (HttpResult.response 404 none)
        HttpResult.transportError =
      (ChainOutcome.notFound, [NetCall.resolveCall "0xabc" "evm_56"]) ∧
    ((evm_apply_outcome EvmStats.init "evm_56"
        ChainOutcome.notFound).by_chain "evm_56").not_found
      = (EvmStats.init.by_chain "evm_56").not_found + 1 :=
  ⟨by decide,
   C6_not_found_no_mutation.1 false "0xabc" "evm_56"
     (HttpResult.response 404 none) HttpResult.transportError (by decide),
   (C6_not_found_no_mutation.2.1 EvmStats.init "evm_56").1⟩

/-! ### Claim C9 -/

/-- C9 counterexample: a transport-level success whose body parses to
the empty object lacks the identifier field, yet is recorded as
NotFound rather than Failed (the falsy-dict check fires first). -/
theorem C9_counterexample :
    (mark_not_spam_step false "0xabc" "evm_56"
        (HttpResult.response 200 (some []))
        (HttpResult.response 200 none)).1 = ChainOutcome.notFound ∧
    dictGet ([] : Dict) "id" = none ∧
    ChainOutcome.notFound ≠ ChainOutcome.failed := by
  decide

/-- C9 (amended): a transport-level success whose body is a non-empty
object lacking the id field (or carrying an empty one) records Failed
and advances without attempting the mutation; when the body is the
empty object the outcome is NotFound instead. -/
theorem C9_missing_id_failed :
    (∀ (dry_run : Bool) (address chain : String) (rr mr : HttpResult)
        (d : Dict), get_asset_info rr = some d → d.isEmpty = false →
          pyTruthyStrOpt (dictGet d "id") = false →
          mark_not_spam_step dry_run address chain rr mr =
            (ChainOutcome.failed, [NetCall.resolveCall address chain])) ∧
    (∀ (dry_run : Bool) (address chain : String) (rr mr : HttpResult),
        get_asset_info rr = some [] →
          mark_not_spam_step dry_run address chain rr mr =
            (ChainOutcome.notFound, [NetCall.resolveCall address chain])) := by
  constructor
  · intro dry_run address chain rr mr d hre hne hid
    exact step_failed_of_no_id dry_run address chain rr mr d hre hne hid
  · intro dry_run address chain rr mr hre
    apply step_notFound_of_falsy
    rw [hre]
    rfl

/-- C9 witness: a 200 response with a body lacking the id, and one with
an empty id, both on concrete pairs. -/
theorem C9_missing_id_failed_witness :
    mark_not_spam_step true "0xabc" "evm_56"
        (HttpResult.response 200 (some [("symbol", "TKX")]))
        HttpResult.transportError =
      (ChainOutcome.failed, [NetCall.resolveCall "0xabc" "evm_56"]) ∧
    mark_not_spam_step false "0xabc" "evm_56"
        (HttpResult.response 200 (some [("id", "")]))
        (HttpResult.response 200 none) =
      (ChainOutcome.failed, [NetCall.resolveCall "0xabc" "evm_56"]) :=
  ⟨C9_missing_id_failed.1 true "0xabc" "evm_56"
      (HttpResult.response 200 (some [("symbol", "TKX")]))
      HttpResult.transportError [("symbol", "TKX")]
      (by decide) (by decide) (by decide),
   C9_missing_id_failed.1 false "0xabc" "evm_56"
      (HttpResult.response 200 (some [("id", "")]))
      (HttpResult.response 200 none) [("id", "")]
      (by decide) (by decide) (by decide)⟩

/-! ### Claim C3 -/

/-- C3 counterexample: in the EVM variant a row with no address is
dropped without the skipped counter ever increasing, and in the
price-update variant a row with no display name is still processed and
a network call is issued for it. -/
theorem C3_counterexample :
    evm_row_skip [("Product name", "TokenX")] = true ∧
    (evm_row_stats EVM_CHAINS false
        ⟨fun _ _ => HttpResult.transportError,
         fun _ _ => HttpResult.transportError⟩
        2 [("Product name", "TokenX")] EvmStats.init).skipped = 0 ∧
    (run_row false
        ⟨fun _ => HttpResult.transportError, fun _ => HttpResult.transportError⟩
        2 [("BSC Deployed Address", "0xabc"), ("CoinGecko API ID", "tokenx")]
        RunStats.init).2 = [NetCall.resolveCall "0xabc" "evm_56"] := by
  decide

/-- C3 (amended): in the spam variants a row failing validation (blank
address or product name) is dropped silently — no counter changes, in
particular the skipped counter stays put, and no network call is
attempted — while in the price-update variant the validated fields are
the address and the CoinGecko id (the display name is never checked)
and the skipped counter does increment; validation is the only
row-level early exit: every valid row is counted. -/
theorem C3_row_validation :
    (∀ (chains : List String) (dry_run : Bool) (o : EvmOracle) (n : Nat)
        (row : Dict) (s : EvmStats), evm_row_skip row = true →
        evm_row_stats chains dry_run o n row s = s ∧
          evm_row_calls chains dry_run o n row = []) ∧
    (∀ (dry_run : Bool) (o : SolOracle) (n : Nat) (row : Dict)
        (s : SolStats), sol_row_skip row = true →
        sol_row_stats dry_run o n row s = s ∧
          sol_row_calls dry_run o n row = []) ∧
    (∀ (dry_run : Bool) (o : RunOracle) (n : Nat) (row : Dict)
        (s : RunStats), run_row_skip row = true →
        run_row dry_run o n row s = ({ s with skipped := s.skipped + 1 }, [])) ∧
    (∀ (chains : List String) (dry_run : Bool) (o : EvmOracle) (n : Nat)
        (row : Dict) (s : EvmStats), evm_row_skip row = false →
        (evm_row_stats chains dry_run o n row s).total_rows
          = s.total_rows + 1) := by
  refine ⟨?_, ?_, ?_, ?_⟩
  · intro chains dry_run o n row s h
    constructor
    · simp [evm_row_stats, h]
    · simp [evm_row_calls, h]
  · intro dry_run o n row s h
    constructor
    · simp [sol_row_stats, h]
    · simp [sol_row_calls, h]
  · intro dry_run o n row s h
    simp [run_row, h]
  · intro chains dry_run o n row s h
    rw [evm_row_stats_total, h]
    simp

/-- C3 witness: the validation behavior at one invalid and one valid
concrete row in each variant. -/
theorem C3_row_validation_witness :
    evm_row_calls EVM_CHAINS false
        ⟨fun _ _ => HttpResult.transportError,
         fun _ _ => HttpResult.transportError⟩
        2 [("Product name", "TokenX")] = [] ∧
    run_row false
        ⟨fun _ => HttpResult.transportError, fun _ => HttpResult.transportError⟩
        2 [("Token Symbol", "TKX")] RunStats.init
      = ({ RunStats.init with skipped := RunStats.init.skipped + 1 }, []) ∧
    (evm_row_stats EVM_CHAINS false
        ⟨fun _ _ => HttpResult.transportError,
         fun _ _ => HttpResult.transportError⟩
        2 [("Product name", "TokenX"), ("EVM address", "0xabc")]
        EvmStats.init).total_rows = EvmStats.init.total_rows + 1 :=
  ⟨(C3_row_validation.1 EVM_CHAINS false
      ⟨fun _ _ => HttpResult.transportError,
       fun _ _ => HttpResult.transportError⟩
      2 [("Product name", "TokenX")] EvmStats.init (by decide)).2,
   C3_row_validation.2.2.1 false
      ⟨fun _ => HttpResult.transportError, fun _ => HttpResult.transportError⟩
      2 [("Token Symbol", "TKX")] RunStats.init (by decide),
   C3_row_validation.2.2.2 EVM_CHAINS false
      ⟨fun _ _ => HttpResult.transportError,
       fun _ _ => HttpResult.transportError⟩
      2 [("Product name", "TokenX"), ("EVM address", "0xabc")]
      EvmStats.init (by decide)⟩

/-! ### Claim C4 -/

/-- C4 counterexample: in the price-update variant a 200 mutation
response whose body lacks a non-empty stdout field is counted under the
failed counter, contradicting the claim that it is not a hard failure
path. -/
theorem C4_counterexample :
    (run_row false
        ⟨fun _ => HttpResult.response 200 (some [("id", "A1")]),
         fun _ => HttpResult.response 200 (some [("other", "x")])⟩
        2 [("BSC Deployed Address", "0xabc"), ("CoinGecko API ID", "tokenx")]
        RunStats.init).1.failed = 1 ∧
    (run_row false
        ⟨fun _ => HttpResult.response 200 (some [("id", "A1")]),
         fun _ => HttpResult.response 200 (some [("other", "x")])⟩
        2 [("BSC Deployed Address", "0xabc"), ("CoinGecko API ID", "tokenx")]
        RunStats.init).1.successful = 0 := by
  decide

/-- C4 (amended): a mutation response that parses but carries no
non-empty stdout field is logged as a warning and recorded under the
failed counter — it is a hard failure path distinct from success. -/
theorem C4_missing_stdout_failed :
    ∀ (dry_run : Bool) (o : RunOracle) (n : Nat) (row : Dict) (s : RunStats)
      (asset_info resp : Dict) (asset_id : String),
      run_row_skip row = false →
      get_asset_info (o.resolve n) = some asset_info →
      asset_info.isEmpty = false →
      dictGet asset_info "id" = some asset_id →
      (asset_id == "") = false →
      update_asset_price (o.price n) = some resp →
      resp.isEmpty = false →
      (pyGetD resp "stdout" == "") = true →
      (run_row dry_run o n row s).1 = { s with failed := s.failed + 1 } ∧
        (run_row dry_run o n row s).1.successful = s.successful := by
  intro dry_run o n row s asset_info resp asset_id hskip hre hne hid hq hup
    hpe hso
  have h := run_row_no_stdout_failed dry_run o n row s asset_info resp
    asset_id hskip hre hne hid hq hup hpe hso
  exact ⟨h, by rw [h]⟩

/-- C4 witness: the amended behavior at a concrete row whose 200
mutation response has no stdout field. -/
theorem C4_missing_stdout_failed_witness :
    (run_row true
        ⟨fun _ => HttpResult.response 200 (some [("id", "A1")]),
         fun _ => HttpResult.response 200 (some [("note", "done")])⟩
        2 [("BSC Deployed Address", "0xabc"), ("CoinGecko API ID", "tokenx")]
        RunStats.init).1
      = { RunStats.init with failed := RunStats.init.failed + 1 } :=
  (C4_missing_stdout_failed true
    ⟨fun _ => HttpResult.response 200 (some [("id", "A1")]),
     fun _ => HttpResult.response 200 (some [("note", "done")])⟩
    2 [("BSC Deployed Address", "0xabc"), ("CoinGecko API ID", "tokenx")]
    RunStats.init [("id", "A1")] [("note", "done")] "A1"
    (by decide) (by decide) (by decide) (by decide) (by decide) (by decide)
    (by decide) (by decide)).1

/-! ### Claim C1 -/

/-- C1 counterexample: a dry run of the price-update variant still
issues the mutation-endpoint call — the dry_run flag only travels as a
form field of the POST. -/
theorem C1_counterexample :
    (process_csv_run true
        ⟨fun _ => HttpResult.response 200 (some [("id", "A1")]),
         fun _ => HttpResult.response 200 (some [("stdout", "ok")])⟩
        [[("BSC Deployed Address", "0xabc"),
          ("CoinGecko API ID", "tokenx")]]).2 =
      [NetCall.resolveCall "0xabc" "evm_56",
       NetCall.updatePriceCall "A1" true] ∧
    NetCall.isMutation (NetCall.updatePriceCall "A1" true) = true := by
  decide

/-- C1 (amended): in the spam-marking variants a dry run never issues
a mutation-endpoint call and its final counters equal those of the live
run in which every mutation call returns 200; in the price-update
variant the mutation call is issued even on a dry run, carrying the
dry-run flag as a request field. -/
theorem C1_dry_run_semantics :
    (∀ (chains : List String) (o : EvmOracle) (n : Nat) (rows : List Dict)
        (s : EvmStats),
        evm_csv_stats chains true o n rows s
          = evm_csv_stats chains false
              { o with mark := fun _ _ => HttpResult.response 200 none }
              n rows s) ∧
    (∀ (chains : List String) (o : EvmOracle) (n : Nat) (rows : List Dict)
        (nc : NetCall), nc ∈ evm_csv_calls chains true o n rows →
          NetCall.isMutation nc = false) ∧
    (∀ (o : SolOracle) (n : Nat) (rows : List Dict) (s : SolStats),
        sol_csv_stats true o n rows s
          = sol_csv_stats false
              { o with mark := fun _ => HttpResult.response 200 none }
              n rows s) ∧
    (∀ (o : SolOracle) (n : Nat) (rows : List Dict) (nc : NetCall),
        nc ∈ sol_csv_calls true o n rows → NetCall.isMutation nc = false) ∧
    (∀ (dry_run : Bool) (o : RunOracle) (n : Nat) (row : Dict)
        (s : RunStats) (asset_info : Dict) (asset_id : String),
        run_row_skip row = false →
        get_asset_info (o.resolve n) = some asset_info →
        asset_info.isEmpty = false →
        dictGet asset_info "id" = some asset_id →
        (asset_id == "") = false →
        NetCall.updatePriceCall asset_id dry_run ∈
          (run_row dry_run o n row s).2) := by
  refine ⟨?_, ?_, ?_, ?_, ?_⟩
  · intro chains o n rows s
    exact evm_csv_stats_dry chains o rows n s
  · intro chains o n rows nc hnc
    exact evm_csv_calls_dry_no_mutation chains o rows n nc hnc
  · intro o n rows s
    exact sol_csv_stats_dry o rows n s
  · intro o n rows nc hnc
    exact sol_csv_calls_dry_no_mutation o rows n nc hnc
  · intro dry_run o n row s asset_info asset_id hskip hre hne hid hq
    exact run_row_mutation_call dry_run o n row s asset_info asset_id
      hskip hre hne hid hq

/-- C1 witness: the dry-run equivalence on a concrete one-row CSV, and
the mutation call issued by a concrete dry price-update row. -/
theorem C1_dry_run_semantics_witness :
    evm_csv_stats EVM_CHAINS true
        ⟨fun _ _ => HttpResult.response 200 (some [("id", "A1")]),
         fun _ _ => HttpResult.transportError⟩ 2
        [[("Product name", "TokenX"), ("EVM address", "0xabc")]]
        EvmStats.init
      = evm_csv_stats EVM_CHAINS false
          ⟨fun _ _ => HttpResult.response 200 (some [("id", "A1")]),
           fun _ _ => HttpResult.response 200 none⟩ 2
          [[("Product name", "TokenX"), ("EVM address", "0xabc")]]
          EvmStats.init ∧
    NetCall.updatePriceCall "A1" true ∈
      (run_row true
        ⟨fun _ => HttpResult.response 200 (some [("id", "A1")]),
         fun _ => HttpResult.transportError⟩ 2
        [("BSC Deployed Address", "0xabc"), ("CoinGecko API ID", "tokenx")]
        RunStats.init).2 :=
  ⟨C1_dry_run_semantics.1 EVM_CHAINS
      ⟨fun _ _ => HttpResult.response 200 (some [("id", "A1")]),
       fun _ _ => HttpResult.transportError⟩ 2
      [[("Product name", "TokenX"), ("EVM address", "0xabc")]]
      EvmStats.init,
   C1_dry_run_semantics.2.2.2.2 true
      ⟨fun _ => HttpResult.response 200 (some [("id", "A1")]),
       fun _ => HttpResult.transportError⟩ 2
      [("BSC Deployed Address", "0xabc"), ("CoinGecko API ID", "tokenx")]
      RunStats.init [("id", "A1")] "A1"
      (by decide) (by decide) (by decide) (by decide) (by decide)⟩

/-! ### Claim C5 -/

/-- C5: over a whole run the outcome counters partition the attempted
(row, chain) pairs: in the EVM variant skipped plus the per-chain
success, failed and not_found buckets sum to total_rows times the
number of configured chains, and in the Solana variant the four flat
counters sum to total_rows. -/
theorem C5_counters_partition :
    (∀ (chains : List String), chains.Nodup →
      ∀ (dry_run : Bool) (o : EvmOracle) (rows : List Dict),
        (evm_csv_stats chains dry_run o 2 rows EvmStats.init).skipped
            + chainPairs chains
                (evm_csv_stats chains dry_run o 2 rows EvmStats.init)
          = (evm_csv_stats chains dry_run o 2 rows EvmStats.init).total_rows
              * chains.length) ∧
    (∀ (dry_run : Bool) (o : SolOracle) (rows : List Dict),
        (sol_csv_stats dry_run o 2 rows SolStats.init).skipped
            + (sol_csv_stats dry_run o 2 rows SolStats.init).success
            + (sol_csv_stats dry_run o 2 rows SolStats.init).failed
            + (sol_csv_stats dry_run o 2 rows SolStats.init).not_found
          = (sol_csv_stats dry_run o 2 rows SolStats.init).total_rows) := by
  constructor
  · intro chains hnd dry_run o rows
    rw [evm_csv_stats_skipped, evm_csv_stats_chainPairs chains hnd,
      evm_csv_stats_total, chainPairs_init]
    show 0 + (0 + validCountEvm rows * chains.length)
      = (0 + validCountEvm rows) * chains.length
    simp
  · intro dry_run o rows
    rw [sol_csv_stats_sum, sol_csv_stats_total]
    show (0 : Nat) + 0 + 0 + 0 + validCountSol rows = 0 + validCountSol rows
    simp

/-- C5 witness: the partition identity on a concrete two-row CSV with a
failing oracle. -/
theorem C5_counters_partition_witness :
    List.Nodup EVM_CHAINS ∧
    (evm_csv_stats EVM_CHAINS false
        ⟨fun _ _ => HttpResult.transportError,
         fun _ _ => HttpResult.transportError⟩ 2
        [[("Product name", "TokenX"), ("EVM address", "0xabc")],
         [("Product name", "TokenY")]] EvmStats.init).skipped
        + chainPairs EVM_CHAINS
            (evm_csv_stats EVM_CHAINS false
              ⟨fun _ _ => HttpResult.transportError,
               fun _ _ => HttpResult.transportError⟩ 2
              [[("Product name", "TokenX"), ("EVM address", "0xabc")],
               [("Product name", "TokenY")]] EvmStats.init)
      = (evm_csv_stats EVM_CHAINS false
          ⟨fun _ _ => HttpResult.transportError,
           fun _ _ => HttpResult.transportError⟩ 2
          [[("Product name", "TokenX"), ("EVM address", "0xabc")],
           [("Product name", "TokenY")]] EvmStats.init).total_rows
          * EVM_CHAINS.length :=
  ⟨by decide,
   C5_counters_partition.1 EVM_CHAINS (by decide) false
     ⟨fun _ _ => HttpResult.transportError,
      fun _ _ => HttpResult.transportError⟩
     [[("Product name", "TokenX"), ("EVM address", "0xabc")],
      [("Product name", "TokenY")]]⟩

/-! ### Claim C7 -/

/-- C7: no per-call failure terminates a batch: whatever HTTP results
the oracle returns — transport failures, error statuses, malformed
bodies — every valid row is counted in the EVM and Solana variants and
every row of the price-update variant lands in exactly one counter, so
the loops always consume the whole input. -/
theorem C7_no_failure_aborts :
    (∀ (chains : List String) (dry_run : Bool) (o : EvmOracle) (n : Nat)
        (rows : List Dict) (s : EvmStats),
        (evm_csv_stats chains dry_run o n rows s).total_rows
          = s.total_rows + validCountEvm rows) ∧
    (∀ (dry_run : Bool) (o : SolOracle) (n : Nat) (rows : List Dict)
        (s : SolStats),
        (sol_csv_stats dry_run o n rows s).total_rows
          = s.total_rows + validCountSol rows) ∧
    (∀ (dry_run : Bool) (o : RunOracle) (n : Nat) (rows : List Dict)
        (s : RunStats),
        (run_csv dry_run o n rows s).1.successful
            + (run_csv dry_run o n rows s).1.failed
            + (run_csv dry_run o n rows s).1.skipped
          = s.successful + s.failed + s.skipped + rows.length) := by
  refine ⟨?_, ?_, ?_⟩
  · intro chains dry_run o n rows s
    exact evm_csv_stats_total chains dry_run o rows n s
  · intro dry_run o n rows s
    exact sol_csv_stats_total dry_run o rows n s
  · intro dry_run o n rows s
    exact run_csv_sum dry_run o rows n s

/-! ### Claim C10 -/

/-- C10: in the multi-EVM-chain variant the run-wide processed_chains
and failed_chains counters always equal the sums of the per-chain
success and failed buckets: the equality is preserved by every single
counter update and holds after processing any prefix of the input
rows. -/
theorem C10_runwide_totals :
    ∀ (chains : List String), chains.Nodup →
      (∀ (s : EvmStats) (c : String) (oc : ChainOutcome), c ∈ chains →
          EvmInv chains s → EvmInv chains (evm_apply_outcome s c oc)) ∧
      (∀ (dry_run : Bool) (o : EvmOracle) (rows : List Dict) (k : Nat),
          EvmInv chains
            (evm_csv_stats chains dry_run o 2 (rows.take k)
              EvmStats.init)) := by
  intro chains hnd
  constructor
  · intro s c oc hc h
    exact EvmInv_apply chains hnd s c oc hc h
  · intro dry_run o rows k
    exact evm_csv_stats_inv chains hnd dry_run o (rows.take k) 2
      EvmStats.init (EvmInv_init chains)

/-- C10 witness: the invariant after one processed row of a concrete
run over the configured chain list. -/
theorem C10_runwide_totals_witness :
    List.Nodup EVM_CHAINS ∧
    EvmInv EVM_CHAINS
      (evm_csv_stats EVM_CHAINS false
        ⟨fun _ _ => HttpResult.response 200 (some [("id", "A1")]),
         fun _ _ => HttpResult.response 200 none⟩ 2
        (List.take 1 [[("Product name", "TokenX"), ("EVM address", "0xabc")]])
        EvmStats.init) :=
  ⟨by decide,
   (C10_runwide_totals EVM_CHAINS (by decide)).2 false
     ⟨fun _ _ => HttpResult.response 200 (some [("id", "A1")]),
      fun _ _ => HttpResult.response 200 none⟩
     [[("Product name", "TokenX"), ("EVM address", "0xabc")]] 1⟩

/-! ### Claim C8 -/

/-- C8 counterexample: in the price-update variant a credential equal to
the placeholder value eyJ is set and non-empty — not missing — and the
input file exists, yet the process exits with code 1. -/
theorem C8_counterexample :
    pyFalsyOptStr (some "eyJ") = false ∧
    pyFalsyOptStr (some "tokenB") = false ∧
    main_run ⟨some "eyJ", some "tokenB", true⟩ false
        ⟨fun _ => HttpResult.transportError,
         fun _ => HttpResult.transportError⟩ [] = (1, none) := by
  decide

/-- C8 (amended): a missing or empty credential or a missing input file
exits non-zero before any row is processed, and in the price-update
variant a credential equal to the placeholder eyJ is likewise fatal;
in every other case the run processes the CSV and exits 0 regardless of
per-row results. -/
theorem C8_startup_validation :
    (∀ (env : EnvConfig) (dry_run : Bool) (o : EvmOracle) (rows : List Dict),
        ((main_evm env dry_run o rows).1 = 0 ↔
          (pyFalsyOptStr env.bearer_token_asset = false ∧
           pyFalsyOptStr env.bearer_token_pricing = false ∧
           env.csv_file_exists = true)) ∧
        ((main_evm env dry_run o rows).1 ≠ 0 →
          (main_evm env dry_run o rows).2 = none) ∧
        ((main_evm env dry_run o rows).1 = 0 →
          (main_evm env dry_run o rows).2 =
            some (process_csv_evm dry_run o rows).1)) ∧
    (∀ (env : EnvConfig) (dry_run : Bool) (o : RunOracle) (rows : List Dict),
        ((main_run env dry_run o rows).1 = 0 ↔
          (pyFalsyOptStr env.bearer_token_asset = false ∧
           (env.bearer_token_asset == some "eyJ") = false ∧
           pyFalsyOptStr env.bearer_token_pricing = false ∧
           (env.bearer_token_pricing == some "eyJ") = false ∧
           env.csv_file_exists = true)) ∧
        ((main_run env dry_run o rows).1 ≠ 0 →
          (main_run env dry_run o rows).2 = none) ∧
        ((main_run env dry_run o rows).1 = 0 →
          (main_run env dry_run o rows).2 =
            some (process_csv_run dry_run o rows).1)) := by
  constructor
  · intro env dry_run o rows
    unfold main_evm
    split_ifs with h1 h2 h3 <;> simp_all
  · intro env dry_run o rows
    have hcsv : (CSV_FILE_RUN == "") = false := by decide
    unfold main_run
    rw [hcsv]
    split_ifs with h1 h2 h3 <;> simp_all <;>
      (intros; casesm* _ ∨ _ <;> simp_all)

/-- C8 witness: a missing credential exits 1 with nothing processed; a
well-formed environment processes the rows and exits 0. -/
theorem C8_startup_validation_witness :
    (main_evm ⟨none, some "tokenB", true⟩ false
        ⟨fun _ _ => HttpResult.transportError,
         fun _ _ => HttpResult.transportError⟩ []).2 = none ∧
    (main_evm ⟨some "tokenA", some "tokenB", true⟩ false
        ⟨fun _ _ => HttpResult.transportError,
         fun _ _ => HttpResult.transportError⟩ []).2
      = some (process_csv_evm false
          ⟨fun _ _ => HttpResult.transportError,
           fun _ _ => HttpResult.transportError⟩ []).1 :=
  ⟨(C8_startup_validation.1 ⟨none, some "tokenB", true⟩ false
      ⟨fun _ _ => HttpResult.transportError,
       fun _ _ => HttpResult.transportError⟩ []).2.1 (by decide),
   (C8_startup_validation.1 ⟨some "tokenA", some "tokenB", true⟩ false
      ⟨fun _ _ => HttpResult.transportError,
       fun _ _ => HttpResult.transportError⟩ []).2.2 (by decide)⟩
